import Mathlib

/-!
Verification of the subgroup feature-attribution engine of the VA_airline
dashboard.  The definitions below are a shallow embedding of
modules/ServiceFactor.py and modules/Shap.py: subgroup resolution,
sample-sufficiency gating, the train/test split control flow, SHAP
shape reconciliation, magnitude ranking, color banding and the insight
summaries.  Machine floats of the source are modelled as exact rationals,
pandas frames as explicit row lists, and the external sklearn/shap calls as
parameters carrying their observable outcome (import success, stratification
failure, fit result, raw SHAP output).
-/

namespace VA

/-- Model of one passenger record: the grouping-column value, the raw
satisfaction string, the value of the satisfaction_binary column (used when
that column exists), and the numeric service-attribute ratings in schema
order. -/
structure Row where
  group : String
  satisfaction : String
  satBin : Int
  feats : List ℚ
deriving DecidableEq

/-- Model of the tabular dataset as the attribution engine sees it: its rows,
whether the grouping column exists in the schema, the explicit category order
when the grouping column is categorical, and whether a satisfaction_binary
column exists. -/
structure DF where
  rows : List Row
  hasGroupCol : Bool
  groupCats : Option (List String)
  hasSatBin : Bool
deriving DecidableEq

/-- Accumulator pass behind uniqueFirstSeen. -/
def uniqueFirstSeenAux (acc : List String) : List String → List String
  | [] => acc
  | x :: xs => uniqueFirstSeenAux (if x ∈ acc then acc else acc ++ [x]) xs

/-- Order produced by pandas Series.unique: each distinct value once, in
order of first appearance. -/
def uniqueFirstSeen (l : List String) : List String := uniqueFirstSeenAux [] l

/-- Ordered group values used by create_service_factors_chart
(ServiceFactor.py lines 21-25, likewise lines 261-265, 466-469, 490-494):
the categorical category order when the column is categorical, first-seen
order of unique() otherwise. -/
def sfGroups (df : DF) : List String :=
  match df.groupCats with
  | some cats => cats
  | none => uniqueFirstSeen (df.rows.map (fun r => r.group))

/-- Ordered group values used by SHAPAnalyzer.analyze_subgroup_shap
(Shap.py line 131) and create_shap_analysis_for_dashboard (line 767):
sorted(df[group_col].unique()). -/
def shapGroups (df : DF) : List String :=
  List.insertionSort (fun a b : String => a ≤ b)
    (uniqueFirstSeen (df.rows.map (fun r => r.group)))

/-- Fallback rule shared by both modules: keep the requested value when it is
among the valid groups, otherwise the first valid group, and raw None when no
group exists at all. -/
def resolveGroup (groups : List String) (req : Option String) : Option String :=
  match req with
  | none => groups.head?
  | some v => if v ∈ groups then some v else groups.head?

/-- Effective subgroup of the ServiceFactor entry points
(ServiceFactor.py lines 21-29). -/
def sfEffectiveSubgroup (df : DF) (req : Option String) : Option String :=
  resolveGroup (sfGroups df) req

/-- Effective subgroup of the SHAP entry points (Shap.py lines 128-134). -/
def shapEffectiveSubgroup (df : DF) (req : Option String) : Option String :=
  resolveGroup (shapGroups df) req

/-- Row filter for one group value. -/
def DF.filterGroup (df : DF) (g : String) : DF :=
  ⟨df.rows.filter (fun r => decide (r.group = g)), df.hasGroupCol, df.groupCats,
    df.hasSatBin⟩

/-- Binary satisfaction label y (Shap.py lines 30-33, ServiceFactor.py lines
150-153): the satisfaction_binary column when present, otherwise
satisfaction equal to the literal string compared and cast to int. -/
def binLabel (df : DF) : List Int :=
  if df.hasSatBin then df.rows.map (fun r => r.satBin)
  else df.rows.map (fun r => if r.satisfaction = "satisfied" then (1 : Int) else 0)

/-- Number of distinct label values, the len of y.unique(). -/
def classCount (df : DF) : Nat := (binLabel df).dedup.length

/-- Sample-sufficiency gate of create_rf_importance_chart and
generate_rf_insights (ServiceFactor.py lines 156 and 351): fewer than 30 rows
or fewer than 2 distinct label values reject. -/
def rfGatePasses (df : DF) : Bool :=
  !(decide (df.rows.length < 30) || decide (classCount df < 2))

/-- Comparison modelling Python sorted with key equal to the second component
and reverse equal to True: stable descending order on the magnitude. -/
def impGE (a b : String × ℚ) : Prop := b.2 ≤ a.2

instance : DecidableRel impGE := fun a b => inferInstanceAs (Decidable (b.2 ≤ a.2))

instance : IsTotal (String × ℚ) impGE := ⟨fun a b => le_total b.2 a.2⟩

instance : IsTrans (String × ℚ) impGE := ⟨fun _ _ _ hab hbc => le_trans hbc hab⟩

/-- Stable descending sort by magnitude used by every ranking site
(ServiceFactor.py lines 180, 379; Shap.py lines 232, 650). -/
def sortByImportanceDesc (l : List (String × ℚ)) : List (String × ℚ) :=
  List.insertionSort impGE l

/-- Color bands of create_rf_importance_chart (ServiceFactor.py lines
188-196). -/
def rfImportanceColor (imp : ℚ) : String :=
  if imp ≥ 15/100 then "#FF6B6B"
  else if imp ≥ 10/100 then "#FFA726"
  else if imp ≥ 5/100 then "#FFD54F"
  else "#81C784"

/-- Python max over a list, defaulting to 1 on the empty list exactly as the
source guard does (Shap.py line 253). -/
def listMax : List ℚ → ℚ
  | [] => 1
  | x :: xs => xs.foldl max x

/-- Color bands of create_shap_summary_chart (Shap.py lines 250-263), applied
to the magnitude normalized by the maximum magnitude. -/
def shapImportanceColor (imp maxImp : ℚ) : String :=
  if imp / maxImp ≥ 8/10 then "#FF6B6B"
  else if imp / maxImp ≥ 6/10 then "#FFA726"
  else if imp / maxImp ≥ 4/10 then "#FFD54F"
  else "#81C784"

/-- Color bands of create_average_ratings_chart (ServiceFactor.py lines
84-92). -/
def avgRatingColor (rating : ℚ) : String :=
  if rating ≥ 4 then "#4CAF50"
  else if rating ≥ 3 then "#FFC107"
  else if rating ≥ 2 then "#FF9800"
  else "#F44336"

/-- Model-quality label of generate_rf_insights (ServiceFactor.py lines
388-397). -/
def rfModelQuality (accuracy : ℚ) : String :=
  if accuracy ≥ 85/100 then "Excellent"
  else if accuracy ≥ 75/100 then "Good"
  else "Fair"

/-- Model-quality label of generate_shap_insights (Shap.py lines 703-712). -/
def shapModelQuality (accuracy : ℚ) : String :=
  if accuracy ≥ 85/100 then "Excellent"
  else if accuracy ≥ 75/100 then "Good"
  else "Fair"

/-- Strategy label of generate_rf_insights (ServiceFactor.py lines
417-426). -/
def rfStrategy (highCount : Nat) : String :=
  if highCount ≤ 3 then "Focus on few key drivers"
  else if highCount ≤ 6 then "Balanced multi-factor approach"
  else "Systematic broad improvement"

/-- Strategy label of generate_shap_insights (Shap.py lines 738-743). -/
def shapStrategy (highCount : Nat) : String :=
  if highCount ≤ 3 then "Focus on few key explainable factors"
  else if highCount ≤ 6 then "Multi-factor explainable approach"
  else "Complex interaction patterns detected"

/-- Model of np.percentile with the default linear interpolation, at the
70th percentile (Shap.py line 668). -/
def percentile70 (xs : List ℚ) : ℚ :=
  let s := List.insertionSort (fun a b : ℚ => a ≤ b) xs
  let n := s.length
  let pos : ℚ := 7 * ((n : ℚ) - 1) / 10
  let i : Nat := (7 * (n - 1)) / 10
  let frac : ℚ := pos - (i : ℚ)
  (s.getD i 0) + frac * ((s.getD (i + 1) 0) - (s.getD i 0))

/-- Arguments of one train_test_split call. -/
structure SplitCall where
  testSize : ℚ
  randomState : Nat
  stratified : Bool
deriving DecidableEq

/-- First split attempted by both trainers (ServiceFactor.py lines 164-167,
Shap.py lines 64-67): 30 percent test, seed 42, stratified. -/
def firstSplitAttempt : SplitCall := ⟨3/10, 42, true⟩

/-- Fallback split of the except ValueError branch (ServiceFactor.py lines
168-171, Shap.py lines 68-71): same sizes and seed, unstratified. -/
def fallbackSplit : SplitCall := ⟨3/10, 42, false⟩

/-- Split actually executed: the stratified attempt unless stratification
raised, in which case the fallback runs. -/
def executedSplit (stratRaises : Bool) : SplitCall :=
  if stratRaises then fallbackSplit else firstSplitAttempt

/-- Held-out row count of sklearn train_test_split with test_size 0.3:
the ceiling of 0.3 times n. -/
def sklearnTestCount (n : Nat) : Nat := (3 * n + 9) / 10

/-- Training row count: the remaining rows. -/
def sklearnTrainCount (n : Nat) : Nat := n - sklearnTestCount n

/-- Shallow model of the numpy arrays flowing out of the tree explainer:
0-, 1-, 2- or 3-dimensional, as nested lists of rationals. -/
inductive NDArr where
  | d0 (x : ℚ)
  | d1 (v : List ℚ)
  | d2 (m : List (List ℚ))
  | d3 (t : List (List (List ℚ)))
deriving DecidableEq

/-- Raw SHAP result: either a Python list of per-class arrays or a single
array. -/
inductive ShapRaw where
  | lst (ms : List NDArr)
  | arr (a : NDArr)
deriving DecidableEq

/-- Number of dimensions. -/
def NDArr.ndim : NDArr → Nat
  | .d0 _ => 0
  | .d1 _ => 1
  | .d2 _ => 2
  | .d3 _ => 3

/-- Column count of a 2-d array; numpy arrays are rectangular, so the head
row carries the shape. -/
def numCols (m : List (List ℚ)) : Nat := (m.headD []).length

/-- Second component of shape; none models the IndexError raised below 2
dimensions. -/
def NDArr.shape1 : NDArr → Option Nat
  | .d0 _ => none
  | .d1 _ => none
  | .d2 m => some (numCols m)
  | .d3 t => some (t.headD []).length

/-- Slice keeping the first k columns of axis 1. -/
def NDArr.takeCols (k : Nat) : NDArr → NDArr
  | .d2 m => .d2 (m.map (fun r => r.take k))
  | .d3 t => .d3 (t.map (fun m => m.take k))
  | a => a

/-- Shape normalization inside train_model_and_calculate_shap (Shap.py lines
95-113): a 2-element class list keeps element 1, a 1-element list element 0,
other lists pass through unchanged; then a 1-d array becomes a single row and
an array that is exactly twice as wide as the feature list keeps its first k
columns.  The none result models the IndexError (caught by the enclosing
except and turned into the all-None return) of reading shape index 1 on a
0-d array. -/
def trainNormalize (k : Nat) (raw : ShapRaw) : Option ShapRaw :=
  let sv : ShapRaw :=
    match raw with
    | .lst ms =>
        if ms.length = 2 then .arr (ms.getD 1 (.d0 0))
        else if ms.length = 1 then .arr (ms.getD 0 (.d0 0))
        else .lst ms
    | .arr a => .arr a
  match sv with
  | .lst ms => some (.lst ms)
  | .arr a =>
      let b := if a.ndim = 1 then (match a with | .d1 v => NDArr.d2 [v] | c => c) else a
      match b.shape1 with
      | none => none
      | some c => if c = k * 2 then some (.arr (b.takeCols k)) else some (.arr b)

/-- Model of np.array applied to a Python list of arrays: a homogeneous list
stacks into one array of the next dimension (heterogeneous lists do not occur
in the program flow). -/
def stackList (ms : List NDArr) : NDArr :=
  match ms with
  | [] => .d1 []
  | _ =>
      let mats := ms.filterMap (fun m => match m with | .d2 r => some r | _ => none)
      if mats.length = ms.length then .d3 mats
      else
        let vecs := ms.filterMap (fun m => match m with | .d1 v => some v | _ => none)
        if vecs.length = ms.length then .d2 vecs
        else .d1 (ms.filterMap (fun m => match m with | .d0 x => some x | _ => none))

/-- Reshapes shared by create_shap_summary_chart (Shap.py lines 185-188) and
generate_shap_insights (lines 573-576): 0-d becomes a 1 by 1 array, 1-d a
single row. -/
def dimFix : NDArr → NDArr
  | .d0 x => .d2 [[x]]
  | .d1 v => .d2 [v]
  | a => a

/-- Width fix of create_shap_summary_chart (Shap.py lines 190-193): when the
column count is exactly twice the feature count, keep the first k columns. -/
def summaryWidthFix (k : Nat) (a : NDArr) : NDArr :=
  match a.shape1 with
  | some c => if c = k * 2 then a.takeCols k else a
  | none => a

/-- Full shape normalization of create_shap_summary_chart (Shap.py lines
181-193). -/
def summaryNormalize (k : Nat) (sv : ShapRaw) : NDArr :=
  let a := match sv with
    | .lst ms => stackList ms
    | .arr b => b
  summaryWidthFix k (dimFix a)

/-- Reduction np.abs of the values, mean over axis 0, then flatten
(Shap.py lines 196-197 and 603-605). -/
def absMean0Flat : NDArr → List ℚ
  | .d0 _ => []
  | .d1 v => [((v.map (fun x => |x|)).sum) / (v.length : ℚ)]
  | .d2 m =>
      (List.range (numCols m)).map
        (fun j => ((m.map (fun r => |r.getD j 0|)).sum) / (m.length : ℚ))
  | .d3 t =>
      ((List.range ((t.headD []).length)).map (fun i =>
        (List.range (numCols (t.headD []))).map (fun j =>
          ((t.map (fun m => |(m.getD i []).getD j 0|)).sum) / (t.length : ℚ)))).flatten

/-- Signed reduction mean over axis 0 then flatten, used by the
directional-impact counts (Shap.py lines 678-679). -/
def mean0Flat : NDArr → List ℚ
  | .d0 _ => []
  | .d1 v => [(v.sum) / (v.length : ℚ)]
  | .d2 m =>
      (List.range (numCols m)).map
        (fun j => ((m.map (fun r => r.getD j 0)).sum) / (m.length : ℚ))
  | .d3 t =>
      ((List.range ((t.headD []).length)).map (fun i =>
        (List.range (numCols (t.headD []))).map (fun j =>
          ((t.map (fun m => (m.getD i []).getD j 0)).sum) / (t.length : ℚ)))).flatten

/-- The feature_importance dict build shared by create_shap_summary_chart
(Shap.py lines 206-221) and generate_shap_insights (lines 612-639): align
names and reduced values to the shorter of the two lengths, then pair them in
order; every numeric conversion succeeds in the rational model. -/
def featureImportanceList (names : List String) (meanAbs : List ℚ) :
    List (String × ℚ) :=
  let mf := min names.length meanAbs.length
  (names.take mf).zip (meanAbs.take mf)

/-- Observable result of create_shap_summary_chart after a successful
analysis. -/
inductive SummaryOut where
  | noFeatureData
  | chart (ranked : List (String × ℚ)) (colors : List String)
deriving DecidableEq

/-- Core of create_shap_summary_chart (Shap.py lines 179-306) given the
stored SHAP values of a successful analysis: normalize shape, reduce to mean
absolute magnitudes, rank descending, band colors by normalized magnitude.
Returns the placeholder constructor exactly when no feature survives. -/
def create_shap_summary_chart (names : List String) (sv : ShapRaw) : SummaryOut :=
  let meanAbs := absMean0Flat (summaryNormalize names.length sv)
  let fi := featureImportanceList names meanAbs
  if fi.isEmpty then .noFeatureData
  else
    let ranked := sortByImportanceDesc fi
    let mx := listMax (ranked.map (fun p => p.2))
    .chart ranked (ranked.map (fun p => shapImportanceColor p.2 mx))

/-- Observable result of generate_shap_insights. -/
inductive InsightsOut where
  | mismatchUnavailable (expected got : Nat)
  | noValidFeatures
  | report (quality : String) (top : String × ℚ) (posCount negCount highCount : Nat)
      (strategy : String)
deriving DecidableEq

/-- List handling of generate_shap_insights (Shap.py lines 563-570): a
2-element list keeps element 1, a 1-element list element 0, any other list is
converted whole by np.array. -/
def insightsListFix : ShapRaw → NDArr
  | .lst ms =>
      if ms.length = 2 then ms.getD 1 (.d0 0)
      else if ms.length = 1 then ms.getD 0 (.d0 0)
      else stackList ms
  | .arr a => a

/-- Width reconciliation of generate_shap_insights (Shap.py lines 578-599):
exactly 2k columns keep the first k; more than k keep the first k; fewer than
k give up with the cannot-fix placeholder, modelled as the error case. -/
def insightsWidthFix (k : Nat) (a : NDArr) : Except (Nat × Nat) NDArr :=
  match a.shape1 with
  | none => .ok a
  | some c =>
      if c = k * 2 then .ok (a.takeCols k)
      else if c ≠ k then
        if c > k then .ok (a.takeCols k) else .error (k, c)
      else .ok a

/-- Core of generate_shap_insights (Shap.py lines 543-756) given the stored
SHAP values and held-out accuracy of a successful analysis: reconcile shape,
reduce, rank, report quality, top factor, directional counts, the count of
factors at or above the 70th percentile of magnitudes, and the strategy label
keyed to that count. -/
def generate_shap_insights (names : List String) (sv : ShapRaw) (accuracy : ℚ) :
    InsightsOut :=
  let k := names.length
  match insightsWidthFix k (dimFix (insightsListFix sv)) with
  | .error eg => .mismatchUnavailable eg.1 eg.2
  | .ok a =>
      let meanAbs := absMean0Flat a
      let fi := featureImportanceList names meanAbs
      if fi.isEmpty then .noValidFeatures
      else
        let ranked := sortByImportanceDesc fi
        let top := ranked.headD ("", 0)
        let thr := percentile70 (ranked.map (fun p => p.2))
        let highCount := (ranked.filter (fun p => decide (thr ≤ p.2))).length
        let meanSigned := mean0Flat a
        let idxs := List.range fi.length
        let posCount := (idxs.filter (fun i => decide ((0 : ℚ) < meanSigned.getD i 0))).length
        let negCount := (idxs.filter (fun i => decide (meanSigned.getD i 0 < (0 : ℚ)))).length
        .report (shapModelQuality accuracy) top posCount negCount highCount
          (shapStrategy highCount)

/-- Model of a plotly figure as far as the claims observe it: a placeholder
with a message, or a horizontal bar chart of factors, values and colors. -/
inductive Fig where
  | placeholderMsg (msg : String)
  | barChart (factors : List String) (values : List ℚ) (colors : List String)
deriving DecidableEq

/-- A Python return value of the chart builders: sometimes a bare figure,
sometimes a figure-and-accuracy tuple. -/
inductive PyValue where
  | figure (f : Fig)
  | figPair (f : Fig) (accuracy : ℚ)
deriving DecidableEq

/-- Result of calling create_service_factors_chart: a returned value, or an
uncaught NameError (the fall-through branch calls create_combined_chart,
which is defined nowhere in the repository and not imported). -/
inductive CallResult where
  | ret (v : PyValue)
  | nameErr (missing : String)
deriving DecidableEq

/-- Column mean of one service attribute over a subset. -/
def featMean (df : DF) (j : Nat) : ℚ :=
  ((df.rows.map (fun r => r.feats.getD j 0)).sum) / (df.rows.length : ℚ)

/-- Model of create_average_ratings_chart (ServiceFactor.py lines 55-136). -/
def create_average_ratings_chart (df : DF) (names : List String) : Fig :=
  if names.isEmpty then .placeholderMsg "No service factor data available"
  else
    let ratings := (List.range names.length).map (featMean df)
    let ranked := sortByImportanceDesc (names.zip ratings)
    .barChart (ranked.map (fun p => p.1)) (ranked.map (fun p => p.2))
      (ranked.map (fun p => avgRatingColor p.2))

/-- Model of create_rf_importance_chart (ServiceFactor.py lines 138-252).
sklearnOk models whether the sklearn import succeeds, stratRaises whether the
stratified split raises ValueError, and fit the outcome of the Random Forest
fit: the per-feature importances paired with the held-out accuracy, or none
when fitting raises.  Only the success path returns the tuple constructor. -/
def create_rf_importance_chart (df : DF) (names : List String) (sklearnOk : Bool)
    (stratRaises : Bool) (fit : Option (List ℚ × ℚ)) : PyValue :=
  if !sklearnOk then
    .figure (.placeholderMsg "sklearn not available for Random Forest analysis")
  else if !rfGatePasses df then
    .figure (.placeholderMsg "Insufficient data for Random Forest analysis")
  else
    let _split := executedSplit stratRaises
    match fit with
    | none => .figure (.placeholderMsg "Error in Random Forest analysis")
    | some fr =>
        let ranked := sortByImportanceDesc (names.zip fr.1)
        .figPair (.barChart (ranked.map (fun p => p.1)) (ranked.map (fun p => p.2))
          (ranked.map (fun p => rfImportanceColor p.2))) fr.2

/-- Model of create_service_factors_chart (ServiceFactor.py lines 9-53), the
public chart entry point: schema guard, group resolution, subset filter, then
dispatch on the strategy string.  The fall-through branch calls the undefined
name create_combined_chart. -/
def create_service_factors_chart (df : DF) (names : List String)
    (req : Option String) (chartType : String) (sklearnOk : Bool)
    (stratRaises : Bool) (fit : Option (List ℚ × ℚ)) : CallResult :=
  if !df.hasGroupCol || names.isEmpty then
    .ret (.figure (.placeholderMsg "No data available for service factor analysis"))
  else
    match sfEffectiveSubgroup df req with
    | none => .ret (.figure (.placeholderMsg "No subgroup data available"))
    | some g =>
        let sub := df.filterGroup g
        if sub.rows.isEmpty then
          .ret (.figure (.placeholderMsg "No data for subgroup"))
        else if chartType = "average" then
          .ret (.figure (create_average_ratings_chart sub names))
        else if chartType = "rf_importance" then
          .ret (create_rf_importance_chart sub names sklearnOk stratRaises fit)
        else .nameErr "create_combined_chart"

/-- Observable result of generate_rf_insights. -/
inductive RFInsightsOut where
  | sklearnMissing
  | insufficient (nRows nClasses : Nat)
  | analysisError
  | report (quality : String) (top : String × ℚ) (highCount lowCount : Nat)
      (strategy : String)
deriving DecidableEq

/-- Model of generate_rf_insights (ServiceFactor.py lines 334-440): gate,
fit, then quality label, top factor, the count of factors at or above the
0.10 high band, the count below 0.05, and the strategy label keyed to the
high count. -/
def generate_rf_insights (df : DF) (names : List String) (sklearnOk : Bool)
    (stratRaises : Bool) (fit : Option (List ℚ × ℚ)) : RFInsightsOut :=
  if !sklearnOk then .sklearnMissing
  else if !rfGatePasses df then .insufficient df.rows.length (classCount df)
  else
    let _split := executedSplit stratRaises
    match fit with
    | none => .analysisError
    | some fr =>
        let ranked := sortByImportanceDesc (names.zip fr.1)
        let top := ranked.headD ("", 0)
        let highCount := (ranked.filter (fun p => decide ((10 : ℚ)/100 ≤ p.2))).length
        let lowCount := (ranked.filter (fun p => decide (p.2 < (5 : ℚ)/100))).length
        .report (rfModelQuality fr.2) top highCount lowCount (rfStrategy highCount)

/-- Observable result of train_model_and_calculate_shap: every early return
of the source is the constructor noneResult (the all-None tuple). -/
inductive ShapTrainResult where
  | noneResult
  | ok (values : ShapRaw) (accuracy : ℚ)
deriving DecidableEq

/-- Model of SHAPAnalyzer.train_model_and_calculate_shap (Shap.py lines
37-122) with its default min_samples of 50.  libsOk models the sklearn and
shap imports, shapOutcome the outcome of fitting and running the tree
explainer: the raw SHAP output paired with the held-out accuracy, or none
when that raises. -/
def train_model_and_calculate_shap (df : DF) (names : List String)
    (minSamples : Nat) (libsOk : Bool) (stratRaises : Bool)
    (shapOutcome : Option (ShapRaw × ℚ)) : ShapTrainResult :=
  if !libsOk then .noneResult
  else if df.rows.length < minSamples then .noneResult
  else if classCount df < 2 then .noneResult
  else if df.rows.isEmpty || names.isEmpty then .noneResult
  else
    let _split := executedSplit stratRaises
    match shapOutcome with
    | none => .noneResult
    | some ra =>
        match trainNormalize names.length ra.1 with
        | none => .noneResult
        | some sv => .ok sv ra.2

/-! Concrete data and auxiliary predicates used by the claim theorems. -/

/-- Two-row dataset whose group values appear in the order B then A. -/
def dfBA : DF :=
  ⟨[⟨"B", "satisfied", 1, []⟩, ⟨"A", "satisfied", 1, []⟩], true, none, false⟩

/-- Rectangularity predicate: the numpy shape (n, k). -/
def RectMat (m : List (List ℚ)) (n k : Nat) : Prop :=
  m.length = n ∧ ∀ r ∈ m, r.length = k

instance (m : List (List ℚ)) (n k : Nat) : Decidable (RectMat m n k) := by
  unfold RectMat
  infer_instance

/-- The four raw shapes named by C1 for a model over k feature columns: a
2-element per-class list whose element 1 is an n by k matrix, a 1-element
list holding an n by k matrix, a 1-d array of length k, and a
doubled-width n by 2k matrix. -/
def ClaimOneShape (k : Nat) (raw : ShapRaw) : Prop :=
  (∃ a m n, raw = .lst [a, .d2 m] ∧ RectMat m n k ∧ 0 < n) ∨
  (∃ m n, raw = .lst [.d2 m] ∧ RectMat m n k ∧ 0 < n) ∨
  (∃ v : List ℚ, raw = .arr (.d1 v) ∧ v.length = k) ∨
  (∃ m n, raw = .arr (.d2 m) ∧ RectMat m n (2 * k) ∧ 0 < n)

/-- Attribution of the extraction pipeline: the trainer-side shape
normalization of train_model_and_calculate_shap followed by the reduction and
dict build of create_shap_summary_chart. -/
def shapAttributionPipeline (names : List String) (raw : ShapRaw) :
    Option (List (String × ℚ)) :=
  (trainNormalize names.length raw).map
    (fun sv => featureImportanceList names
      (absMean0Flat (summaryNormalize names.length sv)))

/-- One satisfied Eco row. -/
def rowSat : Row := ⟨"Eco", "satisfied", 1, [3]⟩

/-- One dissatisfied Eco row. -/
def rowDis : Row := ⟨"Eco", "neutral or dissatisfied", 0, [2]⟩

/-- A 30-row subset with both classes present (15 satisfied, 15 not). -/
def df30 : DF :=
  ⟨List.replicate 15 rowSat ++ List.replicate 15 rowDis, true, none, false⟩

/-- Modelled from the spec (sections 4.5 and the C9 sentence): the count of
factors at or above the high color band of the relative SHAP scale, that is,
magnitude normalized by the maximum magnitude at least 0.6; C9 says the SHAP
strategy label is derived from this count. -/
def claimHighBandCount (ranked : List (String × ℚ)) : Nat :=
  let mx := listMax (ranked.map (fun p => p.2))
  (ranked.filter (fun p => decide ((6 : ℚ)/10 ≤ p.2 / mx))).length

/-- Ten feature names. -/
def shapNames10 : List String :=
  ["f0", "f1", "f2", "f3", "f4", "f5", "f6", "f7", "f8", "f9"]

/-- Ten mean-absolute-SHAP magnitudes, all at or above 0.6 of the maximum. -/
def shapRow10 : List ℚ :=
  [61/100, 62/100, 63/100, 64/100, 65/100, 66/100, 67/100, 68/100, 69/100, 1]

/-! Helper lemmas about the stable descending sort. -/

theorem sortByImportanceDesc_nil : sortByImportanceDesc [] = [] := rfl

theorem sortByImportanceDesc_cons (a : String × ℚ) (t : List (String × ℚ)) :
    sortByImportanceDesc (a :: t) = List.orderedInsert impGE a (sortByImportanceDesc t) := rfl

theorem sortByImportanceDesc_perm (l : List (String × ℚ)) :
    (sortByImportanceDesc l).Perm l :=
  List.perm_insertionSort impGE l

theorem sortByImportanceDesc_pairwise (l : List (String × ℚ)) :
    (sortByImportanceDesc l).Pairwise (fun a b => b.2 ≤ a.2) :=
  List.sorted_insertionSort impGE l

theorem filter_orderedInsert_of_eq (v : ℚ) (a : String × ℚ) (l : List (String × ℚ))
    (ha : a.2 = v) :
    (List.orderedInsert impGE a l).filter (fun p => decide (p.2 = v)) =
      a :: l.filter (fun p => decide (p.2 = v)) := by
  induction l with
  | nil => simp [List.orderedInsert, ha]
  | cons b t ih =>
      by_cases h : impGE a b
      · simp [List.orderedInsert, h, ha]
      · have hb : ¬ b.2 = v := by
          intro hbv
          exact h (le_of_eq (hbv.trans ha.symm))
        simp [List.orderedInsert, h, hb, ih]

theorem filter_orderedInsert_of_ne (v : ℚ) (a : String × ℚ) (l : List (String × ℚ))
    (ha : ¬ a.2 = v) :
    (List.orderedInsert impGE a l).filter (fun p => decide (p.2 = v)) =
      l.filter (fun p => decide (p.2 = v)) := by
  induction l with
  | nil => simp [List.orderedInsert, ha]
  | cons b t ih =>
      by_cases h : impGE a b
      · simp [List.orderedInsert, h, ha]
      · by_cases hb : b.2 = v <;> simp [List.orderedInsert, h, hb, ih]

theorem sortByImportanceDesc_stable (l : List (String × ℚ)) (v : ℚ) :
    (sortByImportanceDesc l).filter (fun p => decide (p.2 = v)) =
      l.filter (fun p => decide (p.2 = v)) := by
  induction l with
  | nil => rfl
  | cons a t ih =>
      rw [sortByImportanceDesc_cons]
      by_cases ha : a.2 = v
      · rw [filter_orderedInsert_of_eq v a _ ha, ih]
        simp [ha]
      · rw [filter_orderedInsert_of_ne v a _ ha, ih]
        simp [ha]

theorem sortByImportanceDesc_head_max (l : List (String × ℚ)) (x : String × ℚ)
    (hx : (sortByImportanceDesc l).head? = some x) :
    ∀ p ∈ l, p.2 ≤ x.2 := by
  intro p hp
  have hmem : p ∈ sortByImportanceDesc l := ((sortByImportanceDesc_perm l).mem_iff).mpr hp
  have hpair := sortByImportanceDesc_pairwise l
  cases hs : sortByImportanceDesc l with
  | nil => rw [hs] at hmem; cases hmem
  | cons y ys =>
      rw [hs] at hx hmem hpair
      have hxy : y = x := by simpa using hx
      subst hxy
      rcases List.mem_cons.mp hmem with h | h
      · exact le_of_eq (congrArg Prod.snd h)
      · exact (List.pairwise_cons.mp hpair).1 p h

/-! Helper lemmas about first-seen unique order. -/

theorem uniqueFirstSeenAux_append (l : List String) :
    ∀ acc : List String, ∃ t, uniqueFirstSeenAux acc l = acc ++ t ∧ t.Sublist l := by
  induction l with
  | nil => exact fun acc => ⟨[], by simp [uniqueFirstSeenAux]⟩
  | cons x xs ih =>
      intro acc
      by_cases hx : x ∈ acc
      · obtain ⟨t, ht, hs⟩ := ih acc
        exact ⟨t, by simp [uniqueFirstSeenAux, hx, ht], hs.cons x⟩
      · obtain ⟨t, ht, hs⟩ := ih (acc ++ [x])
        refine ⟨x :: t, ?_, hs.cons₂ x⟩
        simp [uniqueFirstSeenAux, hx, ht]

theorem uniqueFirstSeenAux_mem (l : List String) :
    ∀ (acc : List String) (a : String),
      a ∈ uniqueFirstSeenAux acc l ↔ a ∈ acc ∨ a ∈ l := by
  induction l with
  | nil => simp [uniqueFirstSeenAux]
  | cons x xs ih =>
      intro acc a
      by_cases hx : x ∈ acc
      · rw [uniqueFirstSeenAux, if_pos hx, ih]
        constructor
        · rintro (h | h)
          · exact Or.inl h
          · exact Or.inr (List.mem_cons_of_mem x h)
        · rintro (h | h)
          · exact Or.inl h
          · rcases List.mem_cons.mp h with rfl | h
            · exact Or.inl hx
            · exact Or.inr h
      · rw [uniqueFirstSeenAux, if_neg hx, ih]
        simp [or_assoc]

theorem uniqueFirstSeenAux_nodup (l : List String) :
    ∀ acc : List String, acc.Nodup → (uniqueFirstSeenAux acc l).Nodup := by
  induction l with
  | nil => exact fun acc h => h
  | cons x xs ih =>
      intro acc hacc
      by_cases hx : x ∈ acc
      · rw [uniqueFirstSeenAux, if_pos hx]
        exact ih acc hacc
      · rw [uniqueFirstSeenAux, if_neg hx]
        exact ih (acc ++ [x]) (by simp [List.nodup_append, hacc, hx])

theorem uniqueFirstSeen_sublist (l : List String) : (uniqueFirstSeen l).Sublist l := by
  obtain ⟨t, ht, hs⟩ := uniqueFirstSeenAux_append l []
  simpa [uniqueFirstSeen, ht] using hs

theorem uniqueFirstSeen_mem (l : List String) (a : String) :
    a ∈ uniqueFirstSeen l ↔ a ∈ l := by
  rw [uniqueFirstSeen, uniqueFirstSeenAux_mem]
  simp

theorem uniqueFirstSeen_nodup (l : List String) : (uniqueFirstSeen l).Nodup :=
  uniqueFirstSeenAux_nodup l [] List.nodup_nil

theorem uniqueFirstSeen_head (x : String) (xs : List String) :
    (uniqueFirstSeen (x :: xs)).head? = some x := by
  obtain ⟨t, ht, _⟩ := uniqueFirstSeenAux_append xs [x]
  rw [uniqueFirstSeen, uniqueFirstSeenAux, if_neg (List.not_mem_nil x), List.nil_append, ht]
  rfl

/-! C4: group-value resolution across the two modules. -/


/-- C4 counterexample: on the same dataset (group column present, no
categorical order, rows appearing as B then A) and the same unspecified
request, the ServiceFactor entry point resolves the effective group to the
first-seen value B while the SHAP entry point resolves it to the
alphabetically first value A, because Shap.py line 131 sorts the unique
values; so the entry points do not resolve the group the same way and the
SHAP path does sort. -/
theorem C4_counterexample :
    sfEffectiveSubgroup dfBA none = some "B" ∧
    shapEffectiveSubgroup dfBA none = some "A" ∧
    shapEffectiveSubgroup dfBA none ≠ sfEffectiveSubgroup dfBA none := by
  have hBA : ¬ ("B" : String) ≤ "A" := by
    rw [String.le_iff_toList_le]
    decide
  refine ⟨?_, ?_, ?_⟩ <;>
    simp [sfEffectiveSubgroup, shapEffectiveSubgroup, sfGroups, shapGroups,
      resolveGroup, uniqueFirstSeen, uniqueFirstSeenAux, dfBA,
      List.insertionSort, List.orderedInsert, hBA]

/-- C4 amended: the ServiceFactor entry points use the explicit category
order when the grouping column has one and otherwise first-seen row order
(duplicate-free, order-preserving sublist of the row order, containing
exactly the occurring values); the SHAP entry points instead sort the unique
group values ascending; each entry point falls back to the first value of its
own ordered list when the request is None or not among the valid values, and
keeps a requested valid value. -/
theorem C4_amended_group_resolution :
    (∀ df : DF, df.groupCats = none →
        (sfGroups df).Nodup ∧
        (∀ a, a ∈ sfGroups df ↔ a ∈ df.rows.map (fun r => r.group)) ∧
        (sfGroups df).Sublist (df.rows.map (fun r => r.group))) ∧
    (∀ (df : DF) (cats : List String), df.groupCats = some cats → sfGroups df = cats) ∧
    (∀ df : DF, (shapGroups df).Sorted (fun a b : String => a ≤ b) ∧
        (shapGroups df).Perm (uniqueFirstSeen (df.rows.map (fun r => r.group)))) ∧
    (∀ (groups : List String) (req : Option String),
        (req = none → resolveGroup groups req = groups.head?) ∧
        (∀ v, req = some v → v ∉ groups → resolveGroup groups req = groups.head?) ∧
        (∀ v, req = some v → v ∈ groups → resolveGroup groups req = some v)) ∧
    (∀ (df : DF) (req : Option String),
        sfEffectiveSubgroup df req = resolveGroup (sfGroups df) req ∧
        shapEffectiveSubgroup df req = resolveGroup (shapGroups df) req) := by
  refine ⟨?_, ?_, ?_, ?_, ?_⟩
  · intro df h
    rw [sfGroups, h]
    exact ⟨uniqueFirstSeen_nodup _, uniqueFirstSeen_mem _, uniqueFirstSeen_sublist _⟩
  · intro df cats h
    rw [sfGroups, h]
  · intro df
    exact ⟨List.sorted_insertionSort _ _, List.perm_insertionSort _ _⟩
  · intro groups req
    refine ⟨?_, ?_, ?_⟩
    · rintro rfl; rfl
    · rintro v rfl hv
      simp [resolveGroup, hv]
    · rintro v rfl hv
      simp [resolveGroup, hv]
  · exact fun df req => ⟨rfl, rfl⟩

/-- Witness instantiating C4 amended at concrete inputs: the two-row dataset
with no categorical order, and a requested value missing from the valid
list. -/
theorem C4_amended_group_resolution_witness :
    (sfGroups dfBA).Nodup ∧
    resolveGroup ["Eco", "Business"] (some "Premium") = some "Eco" ∧
    resolveGroup ["Eco", "Business"] (some "Business") = some "Business" := by
  refine ⟨(C4_amended_group_resolution.1 dfBA rfl).1, ?_, ?_⟩
  · exact (C4_amended_group_resolution.2.2.2.1 ["Eco", "Business"]
      (some "Premium")).2.1 "Premium" rfl (by decide)
  · exact (C4_amended_group_resolution.2.2.2.1 ["Eco", "Business"]
      (some "Business")).2.2 "Business" rfl (by decide)

/-! Helper lemmas about array shapes and the reductions. -/


theorem numCols_of_rect {m : List (List ℚ)} {n k : Nat} (h : RectMat m n k)
    (hn : 0 < n) : numCols m = k := by
  obtain ⟨hl, hr⟩ := h
  cases m with
  | nil => simp at hl; omega
  | cons r t => simpa [numCols] using hr r (List.mem_cons_self r t)

theorem rect_map_take {m : List (List ℚ)} {n k : Nat} (h : RectMat m n (2 * k)) :
    RectMat (m.map (fun r => r.take k)) n k := by
  obtain ⟨hl, hr⟩ := h
  refine ⟨by simpa using hl, ?_⟩
  intro r hrm
  obtain ⟨s, hs, rfl⟩ := List.mem_map.mp hrm
  have hsl := hr s hs
  simp [hsl]
  omega

theorem absMean0Flat_d2_length (m : List (List ℚ)) :
    (absMean0Flat (NDArr.d2 m)).length = numCols m := by
  simp [absMean0Flat]

theorem featureImportanceList_eq_zip {names : List String} {vals : List ℚ}
    (h : vals.length = names.length) :
    featureImportanceList names vals = names.zip vals := by
  have h2 : vals.take names.length = vals := by rw [← h, List.take_length]
  simp [featureImportanceList, h, h2, List.take_length]

theorem trainNormalize_lst2 (k : Nat) (a b : NDArr) :
    trainNormalize k (.lst [a, b]) = trainNormalize k (.arr b) := rfl

theorem trainNormalize_lst1 (k : Nat) (b : NDArr) :
    trainNormalize k (.lst [b]) = trainNormalize k (.arr b) := rfl

theorem trainNormalize_d2 {k : Nat} {m : List (List ℚ)} (h : numCols m ≠ k * 2) :
    trainNormalize k (.arr (.d2 m)) = some (.arr (.d2 m)) := by
  simp [trainNormalize, NDArr.ndim, NDArr.shape1, h]

theorem trainNormalize_d2_double {k : Nat} {m : List (List ℚ)}
    (h : numCols m = k * 2) :
    trainNormalize k (.arr (.d2 m)) =
      some (.arr (.d2 (m.map (fun r => r.take k)))) := by
  simp [trainNormalize, NDArr.ndim, NDArr.shape1, NDArr.takeCols, h]

theorem trainNormalize_d1 {k : Nat} {v : List ℚ} (h : v.length ≠ k * 2) :
    trainNormalize k (.arr (.d1 v)) = some (.arr (.d2 [v])) := by
  simp [trainNormalize, NDArr.ndim, NDArr.shape1, numCols, h]

theorem summaryNormalize_d2 {k : Nat} {m : List (List ℚ)} (h : numCols m ≠ k * 2) :
    summaryNormalize k (.arr (.d2 m)) = .d2 m := by
  simp [summaryNormalize, dimFix, summaryWidthFix, NDArr.shape1, h]

/-! C1: shape reconciliation of raw binary-classification SHAP output. -/


theorem pipeline_ends_on_rect {names : List String} {m2 : List (List ℚ)}
    {n : Nat} {raw : ShapRaw} (hrect : RectMat m2 n names.length) (hn : 0 < n)
    (hk : 0 < names.length)
    (htr : trainNormalize names.length raw = some (.arr (.d2 m2))) :
    ∃ att, shapAttributionPipeline names raw = some att ∧
      att.map Prod.fst = names ∧ att.length = names.length := by
  have hcols : numCols m2 = names.length := numCols_of_rect hrect hn
  have hne : numCols m2 ≠ names.length * 2 := by omega
  have hlen : (absMean0Flat (NDArr.d2 m2)).length = names.length := by
    rw [absMean0Flat_d2_length, hcols]
  refine ⟨names.zip (absMean0Flat (NDArr.d2 m2)), ?_,
    List.map_fst_zip names _ (le_of_eq hlen.symm), by simp [hlen]⟩
  rw [shapAttributionPipeline, htr]
  simp only [Option.map_some']
  rw [summaryNormalize_d2 hne, featureImportanceList_eq_zip hlen]

/-- C1: for each of the raw SHAP output shapes named by the claim — a
2-element per-class list (element 1 kept), a 1-element list (element 0 kept),
a 1-d array (made a single row), and a doubled 2k-wide matrix (first k
columns kept) — the extraction pipeline returns an attribution with exactly
k entries keyed, in order, to the k feature names. -/
theorem C1_shape_reconciliation (names : List String) (raw : ShapRaw)
    (hk : 0 < names.length) (hshape : ClaimOneShape names.length raw) :
    ∃ att, shapAttributionPipeline names raw = some att ∧
      att.map Prod.fst = names ∧ att.length = names.length := by
  rcases hshape with ⟨a, m, n, rfl, hrect, hn⟩ | ⟨m, n, rfl, hrect, hn⟩ |
    ⟨v, rfl, hv⟩ | ⟨m, n, rfl, hrect, hn⟩
  · have hcols : numCols m = names.length := numCols_of_rect hrect hn
    exact pipeline_ends_on_rect hrect hn hk
      (by rw [trainNormalize_lst2, trainNormalize_d2 (by omega)])
  · have hcols : numCols m = names.length := numCols_of_rect hrect hn
    exact pipeline_ends_on_rect hrect hn hk
      (by rw [trainNormalize_lst1, trainNormalize_d2 (by omega)])
  · have hrect1 : RectMat [v] 1 names.length := ⟨rfl, by simpa using hv⟩
    exact pipeline_ends_on_rect hrect1 one_pos hk (trainNormalize_d1 (by omega))
  · have hcols : numCols m = names.length * 2 := by
      have := numCols_of_rect hrect hn
      omega
    exact pipeline_ends_on_rect (rect_map_take hrect) hn hk
      (trainNormalize_d2_double hcols)

/-- Witness for C1 at a concrete input: a 2-element per-class list over two
features, with a 2 by 2 positive-class matrix. -/
theorem C1_shape_reconciliation_witness :
    ∃ att, shapAttributionPipeline ["wifi", "comfort"]
        (.lst [.d2 [[5, 6]], .d2 [[1, 2], [3, 4]]]) = some att ∧
      att.map Prod.fst = ["wifi", "comfort"] ∧ att.length = 2 :=
  C1_shape_reconciliation ["wifi", "comfort"]
    (.lst [.d2 [[5, 6]], .d2 [[1, 2], [3, 4]]]) (by decide)
    (Or.inl ⟨.d2 [[5, 6]], [[1, 2], [3, 4]], 2, rfl, by decide, by decide⟩)

/-! C2: behavior when the reconciled width is smaller than requested. -/

theorem featureImportanceList_short {names : List String} {vals : List ℚ}
    (h : vals.length < names.length) :
    featureImportanceList names vals = (names.take vals.length).zip vals := by
  have hmin : min names.length vals.length = vals.length := by omega
  simp [featureImportanceList, hmin, List.take_length]

/-- C2 counterexample: with three requested features and a reconciled array
of width two, generate_shap_insights returns the explicit cannot-fix
placeholder instead of proceeding with the two surviving leading features,
while create_shap_summary_chart does proceed with them — so it is not the
case that every extraction operation proceeds with the leading features,
with the unavailable placeholder reserved for zero survivors. -/
theorem C2_counterexample :
    generate_shap_insights ["A", "B", "C"] (.arr (.d2 [[1, 2]])) (9/10) =
      .mismatchUnavailable 3 2 ∧
    create_shap_summary_chart ["A", "B", "C"] (.arr (.d2 [[1, 2]])) =
      .chart [("B", 2), ("A", 1)] ["#FF6B6B", "#FFD54F"] := by
  constructor
  · norm_num [generate_shap_insights, insightsListFix, dimFix, insightsWidthFix,
      NDArr.shape1, numCols]
  · norm_num [create_shap_summary_chart, summaryNormalize, dimFix, summaryWidthFix,
      NDArr.shape1, numCols, absMean0Flat, featureImportanceList,
      sortByImportanceDesc, List.insertionSort, List.orderedInsert, impGE,
      listMax, shapImportanceColor, List.range_succ]

/-- C2 amended: for a reconciled SHAP array whose column count c is smaller
than the number of requested feature columns, the summary-chart extraction
proceeds with the c leading features (returning its placeholder exactly when
zero features survive), while the insights extraction returns the explicit
unavailable/mismatch value for every such width; neither raises. -/
theorem C2_amended_width_shrink (names : List String) (m : List (List ℚ))
    (n c : Nat) (acc2 : ℚ) (hrect : RectMat m n c) (hn : 0 < n)
    (hc : c < names.length) :
    (0 < c → ∃ colors, create_shap_summary_chart names (.arr (.d2 m)) =
        .chart (sortByImportanceDesc ((names.take c).zip (absMean0Flat (.d2 m))))
          colors) ∧
    (c = 0 → create_shap_summary_chart names (.arr (.d2 m)) = .noFeatureData) ∧
    generate_shap_insights names (.arr (.d2 m)) acc2 =
      .mismatchUnavailable names.length c := by
  have hcols : numCols m = c := numCols_of_rect hrect hn
  have hne : numCols m ≠ names.length * 2 := by omega
  have hmlen : (absMean0Flat (NDArr.d2 m)).length = c := by
    rw [absMean0Flat_d2_length, hcols]
  have hfi : featureImportanceList names (absMean0Flat (NDArr.d2 m)) =
      (names.take c).zip (absMean0Flat (NDArr.d2 m)) := by
    rw [featureImportanceList_short (by omega), hmlen]
  have hfilen : ((names.take c).zip (absMean0Flat (NDArr.d2 m))).length = c := by
    rw [List.length_zip, List.length_take, hmlen]
    omega
  refine ⟨?_, ?_, ?_⟩
  · intro hc0
    have hfe : ((names.take c).zip (absMean0Flat (NDArr.d2 m))).isEmpty = false := by
      cases hz : (names.take c).zip (absMean0Flat (NDArr.d2 m)) with
      | nil => rw [hz] at hfilen; simp at hfilen; omega
      | cons y ys => rfl
    refine ⟨?_, ?_⟩
    · exact (sortByImportanceDesc ((names.take c).zip (absMean0Flat (.d2 m)))).map
        (fun p => shapImportanceColor p.2
          (listMax ((sortByImportanceDesc ((names.take c).zip
            (absMean0Flat (.d2 m)))).map (fun p => p.2))))
    · simp only [create_shap_summary_chart, summaryNormalize_d2 hne, hfi, hfe,
        Bool.false_eq_true, if_false]
  · intro hc0
    have hfe : ((names.take c).zip (absMean0Flat (NDArr.d2 m))).isEmpty = true := by
      subst hc0
      cases hz : (names.take 0).zip (absMean0Flat (NDArr.d2 m)) with
      | nil => rfl
      | cons y ys => rw [hz] at hfilen; simp at hfilen
    simp only [create_shap_summary_chart, summaryNormalize_d2 hne, hfi, hfe, if_true]
  · have h1 : ¬ (c = names.length * 2) := by omega
    have h2 : ¬ (c = names.length) := by omega
    have h3 : ¬ (c > names.length) := by omega
    have hfix : insightsWidthFix names.length (dimFix (insightsListFix
        (.arr (.d2 m)))) = .error (names.length, c) := by
      simp [insightsListFix, dimFix, insightsWidthFix, NDArr.shape1, hcols, h1, h2, h3]
    simp only [generate_shap_insights, hfix]

/-- Witness instantiating C2 amended at the concrete width-two array with
three requested features. -/
theorem C2_amended_width_shrink_witness :
    (∃ colors, create_shap_summary_chart ["A", "B", "C"] (.arr (.d2 [[1, 2]])) =
        .chart (sortByImportanceDesc ((["A", "B", "C"].take 2).zip
          (absMean0Flat (.d2 [[1, 2]])))) colors) ∧
    generate_shap_insights ["A", "B", "C"] (.arr (.d2 [[1, 2]])) (1/2) =
      .mismatchUnavailable 3 2 := by
  have h := C2_amended_width_shrink ["A", "B", "C"] [[1, 2]] 1 2 (1/2)
    (by decide) (by decide) (by decide)
  exact ⟨h.1 (by decide), h.2.2⟩

/-! C3: the sample-sufficiency gates of the two model-based paths. -/


/-- C3 counterexample: a subset of exactly 30 rows with both classes present
is accepted by the Random Forest gate, but the SHAP trainer — also a
model-based attribution path — rejects it and trains no model, because its
gate uses the default min_samples of 50 (Shap.py lines 37, 49), not 30; so
the sufficiency gate of model-based attribution does not accept every 30-row
two-class subset. -/
theorem C3_counterexample :
    df30.rows.length = 30 ∧ classCount df30 = 2 ∧ rfGatePasses df30 = true ∧
    train_model_and_calculate_shap df30 ["wifi"] 50 true false
      (some (.arr (.d2 [[1]]), 9/10)) = .noneResult := by
  refine ⟨by decide, by decide, by decide, by decide⟩

/-- C3 amended: the Random Forest importance gate accepts a subset exactly
when it has at least 30 rows and at least 2 distinct binarized label values,
and on rejection both Random Forest entry points return their insufficiency
placeholder without training; the SHAP trainer instead requires at least 50
rows (its default min_samples), at least 2 distinct label values and a
nonempty feature list, returns the all-None result whenever any of these
fails, and otherwise trains and returns the reconciled values and
accuracy. -/
theorem C3_amended_gates :
    (∀ df : DF, rfGatePasses df = true ↔
        (30 ≤ df.rows.length ∧ 2 ≤ classCount df)) ∧
    (∀ (df : DF) (names : List String) (libsOk stratRaises : Bool)
        (outcome : Option (ShapRaw × ℚ)),
        (df.rows.length < 50 ∨ classCount df < 2 ∨ names = ([] : List String)) →
        train_model_and_calculate_shap df names 50 libsOk stratRaises outcome =
          .noneResult) ∧
    (∀ (df : DF) (names : List String) (stratRaises : Bool)
        (fit : Option (List ℚ × ℚ)), rfGatePasses df = false →
        create_rf_importance_chart df names true stratRaises fit =
          .figure (.placeholderMsg "Insufficient data for Random Forest analysis")) ∧
    (∀ (df : DF) (names : List String) (stratRaises : Bool)
        (fit : Option (List ℚ × ℚ)), rfGatePasses df = false →
        generate_rf_insights df names true stratRaises fit =
          .insufficient df.rows.length (classCount df)) ∧
    (∀ (df : DF) (names : List String) (stratRaises : Bool) (raw : ShapRaw)
        (acc3 : ℚ) (sv : ShapRaw),
        50 ≤ df.rows.length → 2 ≤ classCount df → names ≠ [] →
        trainNormalize names.length raw = some sv →
        train_model_and_calculate_shap df names 50 true stratRaises
          (some (raw, acc3)) = .ok sv acc3) := by
  refine ⟨?_, ?_, ?_, ?_, ?_⟩
  · intro df
    simp [rfGatePasses, not_lt]
  · intro df names libsOk st outcome h
    rw [train_model_and_calculate_shap.eq_def]
    split_ifs with h1 h2 h3 h4
    · rfl
    · rfl
    · rfl
    · rfl
    · exfalso
      rcases h with h | h | h
      · exact h2 h
      · exact h3 h
      · apply h4
        subst h
        simp
  · intro df names st fit hgate
    simp [create_rf_importance_chart, hgate]
  · intro df names st fit hgate
    simp [generate_rf_insights, hgate]
  · intro df names st raw acc3 sv h50 hcc hne htr
    have h1 : ¬ (df.rows.length < 50) := by omega
    have h2 : ¬ (classCount df < 2) := by omega
    have hrows : df.rows.isEmpty = false := by
      cases hr : df.rows with
      | nil => rw [hr] at h50; simp at h50
      | cons x xs => rfl
    have hnames : names.isEmpty = false := by
      cases hn2 : names with
      | nil => exact absurd hn2 hne
      | cons x xs => rfl
    simp [train_model_and_calculate_shap, h1, h2, hrows, hnames, htr]

/-- Witness instantiating C3 amended at the 30-row two-class subset: the
Random Forest gate accepts it, while the SHAP trainer returns the all-None
result for it (its row count is below 50). -/
theorem C3_amended_gates_witness :
    rfGatePasses df30 = true ∧
    train_model_and_calculate_shap df30 ["wifi"] 50 true true none =
      .noneResult := by
  refine ⟨(C3_amended_gates.1 df30).mpr ⟨by decide, by decide⟩,
    C3_amended_gates.2.1 df30 ["wifi"] true true none (Or.inl (by decide))⟩

/-! C9: insight summaries of the two generators. -/

theorem insertionSortAsc_eq_of_perm {l1 l2 : List ℚ} (h : l1.Perm l2) :
    List.insertionSort (fun a b : ℚ => a ≤ b) l1 =
      List.insertionSort (fun a b : ℚ => a ≤ b) l2 := by
  haveI : IsAntisymm ℚ (fun a b : ℚ => a ≤ b) := ⟨fun a b h1 h2 => le_antisymm h1 h2⟩
  have hp : (List.insertionSort (fun a b : ℚ => a ≤ b) l1).Perm
      (List.insertionSort (fun a b : ℚ => a ≤ b) l2) :=
    (List.perm_insertionSort _ l1).trans (h.trans (List.perm_insertionSort _ l2).symm)
  exact List.eq_of_perm_of_sorted hp (List.sorted_insertionSort _ l1)
    (List.sorted_insertionSort _ l2)

theorem percentile70_perm {l1 l2 : List ℚ} (h : l1.Perm l2) :
    percentile70 l1 = percentile70 l2 := by
  unfold percentile70
  rw [insertionSortAsc_eq_of_perm h]


set_option maxHeartbeats 2000000 in
/-- C9 counterexample: on ten factors whose magnitudes are all within the
high color band (all normalized magnitudes at least 0.6, so the claim-side
high-band count is 10 and the claimed strategy bucket is the broad one), the
SHAP insight generator counts only the 3 factors at or above the 70th
percentile of the magnitudes and reports the focus strategy — so the SHAP
generator does not count the high color band nor derive its strategy label
from that count. -/
theorem C9_counterexample :
    generate_shap_insights shapNames10 (.arr (.d2 [shapRow10])) (9/10) =
      .report "Excellent" ("f9", 1) 10 0 3 "Focus on few key explainable factors" ∧
    claimHighBandCount (sortByImportanceDesc (shapNames10.zip shapRow10)) = 10 ∧
    shapStrategy (claimHighBandCount (sortByImportanceDesc
      (shapNames10.zip shapRow10))) = "Complex interaction patterns detected" := by
  refine ⟨?_, ?_, ?_⟩ <;>
    norm_num [generate_shap_insights, insightsListFix, dimFix, insightsWidthFix,
      NDArr.shape1, numCols, absMean0Flat, mean0Flat, featureImportanceList,
      sortByImportanceDesc, List.insertionSort, List.orderedInsert, impGE,
      percentile70, shapModelQuality, shapStrategy, listMax, claimHighBandCount,
      shapNames10, shapRow10, List.range_succ, abs_of_nonneg]

/-- C9 amended: both insight generators report the single top factor (a
maximal element of the attribution) and a strategy label keyed by the
buckets at most 3, at most 6, more — but the counted set differs: the
importance-based generator counts factors at or above the absolute 0.10 high
band, while the SHAP-based generator counts factors at or above the 70th
percentile of the magnitudes. -/
theorem C9_amended_insights :
    (∀ (df : DF) (names : List String) (imps : List ℚ) (acc9 : ℚ) (st : Bool),
        rfGatePasses df = true → names ≠ [] → names.length = imps.length →
        ∃ top, generate_rf_insights df names true st (some (imps, acc9)) =
            .report (rfModelQuality acc9) top
              (((names.zip imps).filter (fun p => decide ((10 : ℚ)/100 ≤ p.2))).length)
              (((names.zip imps).filter (fun p => decide (p.2 < (5 : ℚ)/100))).length)
              (rfStrategy (((names.zip imps).filter
                (fun p => decide ((10 : ℚ)/100 ≤ p.2))).length)) ∧
          top ∈ names.zip imps ∧ ∀ p ∈ names.zip imps, p.2 ≤ top.2) ∧
    (∀ (names : List String) (m : List (List ℚ)) (n : Nat) (acc9 : ℚ),
        RectMat m n names.length → 0 < n → 0 < names.length →
        ∃ top posC negC,
          generate_shap_insights names (.arr (.d2 m)) acc9 =
            .report (shapModelQuality acc9) top posC negC
              (((names.zip (absMean0Flat (.d2 m))).filter (fun p =>
                decide (percentile70 ((names.zip (absMean0Flat (.d2 m))).map
                  (fun p => p.2)) ≤ p.2))).length)
              (shapStrategy (((names.zip (absMean0Flat (.d2 m))).filter (fun p =>
                decide (percentile70 ((names.zip (absMean0Flat (.d2 m))).map
                  (fun p => p.2)) ≤ p.2))).length)) ∧
          top ∈ names.zip (absMean0Flat (.d2 m)) ∧
          ∀ p ∈ names.zip (absMean0Flat (.d2 m)), p.2 ≤ top.2) := by
  constructor
  · intro df names imps acc9 st hgate hne hlen
    have hziplen : (names.zip imps).length = names.length := by
      simp [List.length_zip, hlen]
    obtain ⟨x, xs, hcons⟩ :
        ∃ x xs, sortByImportanceDesc (names.zip imps) = x :: xs := by
      have hplen := (sortByImportanceDesc_perm (names.zip imps)).length_eq
      rw [hziplen] at hplen
      cases hs : sortByImportanceDesc (names.zip imps) with
      | nil =>
          rw [hs] at hplen
          cases names with
          | nil => exact absurd rfl hne
          | cons y ys => simp at hplen
      | cons y ys => exact ⟨y, ys, rfl⟩
    have hperm := sortByImportanceDesc_perm (names.zip imps)
    refine ⟨x, ?_, ?_, ?_⟩
    · simp only [generate_rf_insights, hgate, Bool.not_true, Bool.false_eq_true,
        if_false, Bool.not_false, if_true]
      rw [(hperm.filter _).length_eq, (hperm.filter _).length_eq, hcons]
      rfl
    · exact hperm.mem_iff.mp (hcons ▸ List.mem_cons_self x xs)
    · exact sortByImportanceDesc_head_max (names.zip imps) x (by rw [hcons]; rfl)
  · intro names m n acc9 hrect hn hk
    have hcols : numCols m = names.length := numCols_of_rect hrect hn
    have hne2 : ¬ (names.length = names.length * 2) := by omega
    have hfix : insightsWidthFix names.length (dimFix (insightsListFix
        (.arr (.d2 m)))) = .ok (.d2 m) := by
      simp [insightsListFix, dimFix, insightsWidthFix, NDArr.shape1, hcols, hne2]
    have hmlen : (absMean0Flat (NDArr.d2 m)).length = names.length := by
      rw [absMean0Flat_d2_length, hcols]
    have hfi : featureImportanceList names (absMean0Flat (NDArr.d2 m)) =
        names.zip (absMean0Flat (NDArr.d2 m)) :=
      featureImportanceList_eq_zip hmlen
    have hziplen : (names.zip (absMean0Flat (NDArr.d2 m))).length = names.length := by
      simp [List.length_zip, hmlen]
    have hfe : (names.zip (absMean0Flat (NDArr.d2 m))).isEmpty = false := by
      cases hz : names.zip (absMean0Flat (NDArr.d2 m)) with
      | nil => rw [hz] at hziplen; simp at hziplen; omega
      | cons y ys => rfl
    obtain ⟨x, xs, hcons⟩ :
        ∃ x xs, sortByImportanceDesc (names.zip (absMean0Flat (NDArr.d2 m))) =
          x :: xs := by
      have hplen :=
        (sortByImportanceDesc_perm (names.zip (absMean0Flat (NDArr.d2 m)))).length_eq
      rw [hziplen] at hplen
      cases hs : sortByImportanceDesc (names.zip (absMean0Flat (NDArr.d2 m))) with
      | nil => rw [hs] at hplen; simp at hplen; omega
      | cons y ys => exact ⟨y, ys, rfl⟩
    have hperm := sortByImportanceDesc_perm (names.zip (absMean0Flat (NDArr.d2 m)))
    have hthr : percentile70 ((sortByImportanceDesc (names.zip
        (absMean0Flat (NDArr.d2 m)))).map (fun p => p.2)) =
        percentile70 ((names.zip (absMean0Flat (NDArr.d2 m))).map (fun p => p.2)) :=
      percentile70_perm (hperm.map _)
    refine ⟨x,
      ((List.range (names.zip (absMean0Flat (NDArr.d2 m))).length).filter
        (fun i => decide ((0 : ℚ) < (mean0Flat (NDArr.d2 m)).getD i 0))).length,
      ((List.range (names.zip (absMean0Flat (NDArr.d2 m))).length).filter
        (fun i => decide ((mean0Flat (NDArr.d2 m)).getD i 0 < (0 : ℚ)))).length,
      ?_, ?_, ?_⟩
    · simp only [generate_shap_insights, hfix, hfi, hfe, Bool.false_eq_true,
        if_false]
      rw [hthr, (hperm.filter _).length_eq, hcons]
      rfl
    · exact hperm.mem_iff.mp (hcons ▸ List.mem_cons_self x xs)
    · exact sortByImportanceDesc_head_max _ x (by rw [hcons]; rfl)

/-- Witness instantiating C9 amended on concrete inputs: the 30-row subset
with one feature of importance 0.5 for the importance generator, and a single
feature with one SHAP row for the SHAP generator. -/
theorem C9_amended_insights_witness :
    (∃ top, generate_rf_insights df30 ["a"] true false (some ([1/2], 4/5)) =
        .report (rfModelQuality (4/5)) top
          (((["a"].zip [(1 : ℚ)/2]).filter (fun p => decide ((10 : ℚ)/100 ≤ p.2))).length)
          (((["a"].zip [(1 : ℚ)/2]).filter (fun p => decide (p.2 < (5 : ℚ)/100))).length)
          (rfStrategy (((["a"].zip [(1 : ℚ)/2]).filter
            (fun p => decide ((10 : ℚ)/100 ≤ p.2))).length)) ∧
      top ∈ ["a"].zip [(1 : ℚ)/2] ∧ ∀ p ∈ ["a"].zip [(1 : ℚ)/2], p.2 ≤ top.2) ∧
    (∃ top posC negC,
        generate_shap_insights ["A"] (.arr (.d2 [[2]])) (9/10) =
          .report (shapModelQuality (9/10)) top posC negC
            (((["A"].zip (absMean0Flat (.d2 [[2]]))).filter (fun p =>
              decide (percentile70 ((["A"].zip (absMean0Flat (.d2 [[2]]))).map
                (fun p => p.2)) ≤ p.2))).length)
            (shapStrategy (((["A"].zip (absMean0Flat (.d2 [[2]]))).filter (fun p =>
              decide (percentile70 ((["A"].zip (absMean0Flat (.d2 [[2]]))).map
                (fun p => p.2)) ≤ p.2))).length)) ∧
        top ∈ ["A"].zip (absMean0Flat (.d2 [[2]])) ∧
        ∀ p ∈ ["A"].zip (absMean0Flat (.d2 [[2]])), p.2 ≤ top.2) :=
  ⟨C9_amended_insights.1 df30 ["a"] [1/2] (4/5) false (by decide) (by decide)
      (by decide),
    C9_amended_insights.2 ["A"] [[2]] 1 (9/10) (by decide) (by decide) (by decide)⟩

/-! C10: return shape of the public chart entry point. -/

/-- C10 counterexample: on a dataset where every guard passes, the
rf_importance strategy returns a figure-and-accuracy pair and the average
strategy a bare figure — but a fall-through strategy value does not return a
single figure: it raises a NameError, because the branch calls
create_combined_chart, which is defined nowhere in the repository; so it is
not the case that every other strategy returns a single figure. -/
theorem C10_counterexample :
    create_service_factors_chart df30 ["wifi"] none "combined" true false
      (some ([1/2], 9/10)) = .nameErr "create_combined_chart" ∧
    (∃ f, create_service_factors_chart df30 ["wifi"] none "average" true false
      (some ([1/2], 9/10)) = .ret (.figure f)) ∧
    (∃ f acc10, create_service_factors_chart df30 ["wifi"] none "rf_importance"
      true false (some ([1/2], 9/10)) = .ret (.figPair f acc10)) := by
  refine ⟨by decide, ⟨_, rfl⟩, ⟨_, _, rfl⟩⟩

/-- C10 amended: the public chart entry point has no fixed result shape.
With the grouping column present, a nonempty feature list, a resolved group
and a nonempty subset: the rf_importance strategy returns a
figure-and-accuracy pair exactly on the success path (sklearn present, gate
passed, fit succeeded); the average strategy and the missing-dependency,
insufficiency and training-failure branches of rf_importance each return a
bare figure; and any other strategy value raises the NameError for the
undefined create_combined_chart.  When the grouping column is absent or the
feature list empty, a bare placeholder figure is returned for every
strategy. -/
theorem C10_amended_return_shape :
    (∀ (df : DF) (names : List String) (req : Option String) (st : Bool)
        (fit : Option (List ℚ × ℚ)) (g : String),
        df.hasGroupCol = true → names ≠ [] →
        sfEffectiveSubgroup df req = some g →
        (df.filterGroup g).rows ≠ [] →
        (∀ imps acc10, rfGatePasses (df.filterGroup g) = true →
          fit = some (imps, acc10) →
          ∃ f, create_service_factors_chart df names req "rf_importance" true st
            fit = .ret (.figPair f acc10)) ∧
        (∀ sk, ∃ f, create_service_factors_chart df names req "average" sk st fit =
          .ret (.figure f)) ∧
        (∃ f, create_service_factors_chart df names req "rf_importance" false st
          fit = .ret (.figure f)) ∧
        (rfGatePasses (df.filterGroup g) = false →
          ∃ f, create_service_factors_chart df names req "rf_importance" true st
            fit = .ret (.figure f)) ∧
        (fit = none →
          ∃ f, create_service_factors_chart df names req "rf_importance" true st
            fit = .ret (.figure f)) ∧
        (∀ ct : String, ct ≠ "average" → ct ≠ "rf_importance" →
          ∀ sk, create_service_factors_chart df names req ct sk st fit =
            .nameErr "create_combined_chart")) ∧
    (∀ (df : DF) (names : List String) (req : Option String) (ct : String)
        (sk st : Bool) (fit : Option (List ℚ × ℚ)),
        df.hasGroupCol = false ∨ names = [] →
        ∃ f, create_service_factors_chart df names req ct sk st fit =
          .ret (.figure f)) := by
  constructor
  · intro df names req st fit g hcol hnames hres hsub
    have hnamesE : names.isEmpty = false := by
      cases names with
      | nil => exact absurd rfl hnames
      | cons x xs => rfl
    have hsubE : (df.filterGroup g).rows.isEmpty = false := by
      cases hr : (df.filterGroup g).rows with
      | nil => exact absurd hr hsub
      | cons x xs => rfl
    refine ⟨?_, ?_, ?_, ?_, ?_, ?_⟩
    · intro imps acc10 hgate hfit
      subst hfit
      refine ⟨.barChart ((sortByImportanceDesc (names.zip imps)).map (fun p => p.1))
        ((sortByImportanceDesc (names.zip imps)).map (fun p => p.2))
        ((sortByImportanceDesc (names.zip imps)).map
          (fun p => rfImportanceColor p.2)), ?_⟩
      simp [create_service_factors_chart, create_rf_importance_chart,
        hcol, hnamesE, hres, hsubE, hgate]
    · intro sk
      refine ⟨create_average_ratings_chart (df.filterGroup g) names, ?_⟩
      simp [create_service_factors_chart, hcol, hnamesE, hres, hsubE]
    · refine ⟨.placeholderMsg "sklearn not available for Random Forest analysis", ?_⟩
      simp [create_service_factors_chart, create_rf_importance_chart,
        hcol, hnamesE, hres, hsubE]
    · intro hgate
      refine ⟨.placeholderMsg "Insufficient data for Random Forest analysis", ?_⟩
      simp [create_service_factors_chart, create_rf_importance_chart,
        hcol, hnamesE, hres, hsubE, hgate]
    · intro hfit
      subst hfit
      by_cases hgate : rfGatePasses (df.filterGroup g) = true
      · refine ⟨.placeholderMsg "Error in Random Forest analysis", ?_⟩
        simp [create_service_factors_chart, create_rf_importance_chart,
          hcol, hnamesE, hres, hsubE, hgate]
      · refine ⟨.placeholderMsg "Insufficient data for Random Forest analysis", ?_⟩
        simp [create_service_factors_chart, create_rf_importance_chart,
          hcol, hnamesE, hres, hsubE, Bool.eq_false_iff.mpr hgate]
    · intro ct h1 h2 sk
      simp [create_service_factors_chart, hcol, hnamesE, hres, hsubE, h1, h2]
  · intro df names req ct sk st fit h
    rcases h with h | h
    · refine ⟨.placeholderMsg "No data available for service factor analysis", ?_⟩
      simp [create_service_factors_chart, h]
    · subst h
      refine ⟨.placeholderMsg "No data available for service factor analysis", ?_⟩
      simp [create_service_factors_chart]

/-- Witness instantiating C10 amended at the 30-row subset: a pair on the
rf_importance success path and a NameError on the waterfall strategy. -/
theorem C10_amended_return_shape_witness :
    (∃ f, create_service_factors_chart df30 ["wifi"] none "rf_importance" true
      false (some ([1/2], 9/10)) = .ret (.figPair f (9/10))) ∧
    create_service_factors_chart df30 ["wifi"] none "waterfall" true false none =
      .nameErr "create_combined_chart" := by
  have h1 := C10_amended_return_shape.1 df30 ["wifi"] none false
    (some ([1/2], 9/10)) "Eco" (by decide) (by decide) (by decide) (by decide)
  have h2 := C10_amended_return_shape.1 df30 ["wifi"] none false
    (none : Option (List ℚ × ℚ)) "Eco" (by decide) (by decide) (by decide)
    (by decide)
  exact ⟨h1.1 [1/2] (9/10) (by decide) rfl,
    h2.2.2.2.2.2 "waterfall" (by decide) (by decide) true⟩

/-! C5: the train/test split control flow. -/

/-- C5: for every gated subset the trainer splits 70/30 with the fixed seed
42, first attempting a stratified split; exactly when stratification raises
it falls back to a plain split with the same size and seed, so training
always proceeds on a 70/30 partition (test rows are the ceiling of 0.3 n).
Embeds ServiceFactor.py lines 163-171 and Shap.py lines 63-71. -/
theorem C5_split_fallback (b : Bool) (n : Nat) :
    (executedSplit b).testSize = 3/10 ∧
    (executedSplit b).randomState = 42 ∧
    ((executedSplit b).stratified = true ↔ b = false) ∧
    sklearnTrainCount n + sklearnTestCount n = n ∧
    3 * n ≤ 10 * sklearnTestCount n ∧
    10 * sklearnTestCount n ≤ 3 * n + 9 := by
  refine ⟨?_, ?_, ?_, ?_, ?_, ?_⟩ <;>
    cases b <;>
      simp [executedSplit, firstSplitAttempt, fallbackSplit, sklearnTestCount,
        sklearnTrainCount] <;>
      omega

/-! C6: the stable descending ranking. -/

/-- C6: the ranking operation returns the factors sorted by magnitude in
descending order; equal magnitudes keep their original order (the sort is
stable, witnessed by filter invariance at every magnitude), and the output is
a permutation of the input; the concrete example of the claim ranks
A 0.3, B 0.5, C 0.1 as B, A, C. -/
theorem C6_ranking_stable_desc :
    (∀ l : List (String × ℚ),
        (sortByImportanceDesc l).Perm l ∧
        (sortByImportanceDesc l).Pairwise (fun a b => b.2 ≤ a.2) ∧
        ∀ v : ℚ, (sortByImportanceDesc l).filter (fun p => decide (p.2 = v)) =
          l.filter (fun p => decide (p.2 = v))) ∧
    sortByImportanceDesc [("A", 3/10), ("B", 5/10), ("C", 1/10)] =
      [("B", 5/10), ("A", 3/10), ("C", 1/10)] := by
  constructor
  · intro l
    exact ⟨sortByImportanceDesc_perm l, sortByImportanceDesc_pairwise l,
      sortByImportanceDesc_stable l⟩
  · norm_num [sortByImportanceDesc, List.insertionSort, List.orderedInsert, impGE]

/-! C7: color banding. -/

/-- C7: the color band is assigned by lower-inclusive thresholds on the
magnitude, 0.15 / 0.10 / 0.05, so that 0.15 gets the highest band and
0.149999 the next band down; the SHAP path applies the same four-band
structure to the magnitude normalized by the maximum magnitude with
thresholds 0.8 / 0.6 / 0.4. -/
theorem C7_color_bands :
    (∀ x : ℚ,
        (rfImportanceColor x = "#FF6B6B" ↔ 15/100 ≤ x) ∧
        (rfImportanceColor x = "#FFA726" ↔ 10/100 ≤ x ∧ x < 15/100) ∧
        (rfImportanceColor x = "#FFD54F" ↔ 5/100 ≤ x ∧ x < 10/100) ∧
        (rfImportanceColor x = "#81C784" ↔ x < 5/100)) ∧
    rfImportanceColor (15/100) = "#FF6B6B" ∧
    rfImportanceColor (149999/1000000) = "#FFA726" ∧
    (∀ imp mx : ℚ,
        (shapImportanceColor imp mx = "#FF6B6B" ↔ 8/10 ≤ imp / mx) ∧
        (shapImportanceColor imp mx = "#FFA726" ↔ 6/10 ≤ imp / mx ∧ imp / mx < 8/10) ∧
        (shapImportanceColor imp mx = "#FFD54F" ↔ 4/10 ≤ imp / mx ∧ imp / mx < 6/10) ∧
        (shapImportanceColor imp mx = "#81C784" ↔ imp / mx < 4/10)) := by
  refine ⟨fun x => ?_, by norm_num [rfImportanceColor],
    by norm_num [rfImportanceColor], fun imp mx => ?_⟩
  · unfold rfImportanceColor
    split_ifs with h1 h2 h3 <;> refine ⟨?_, ?_, ?_, ?_⟩ <;>
      simp_all <;> intros <;> linarith
  · unfold shapImportanceColor
    split_ifs with h1 h2 h3 <;> refine ⟨?_, ?_, ?_, ?_⟩ <;>
      simp_all <;> intros <;> linarith

/-! C8: model-quality labels. -/

/-- C8: the model-quality label is Excellent exactly when accuracy is at
least 0.85, Good exactly on [0.75, 0.85), Fair below 0.75, with the boundary
values 0.85, 0.849999, 0.75 and 0.749999 resolving as the claim states, and
the importance-based and SHAP-based insight generators use pointwise the same
mapping. -/
theorem C8_quality_label :
    (∀ a : ℚ,
        rfModelQuality a = shapModelQuality a ∧
        (rfModelQuality a = "Excellent" ↔ 85/100 ≤ a) ∧
        (rfModelQuality a = "Good" ↔ 75/100 ≤ a ∧ a < 85/100) ∧
        (rfModelQuality a = "Fair" ↔ a < 75/100)) ∧
    rfModelQuality (85/100) = "Excellent" ∧
    rfModelQuality (849999/1000000) = "Good" ∧
    rfModelQuality (75/100) = "Good" ∧
    rfModelQuality (749999/1000000) = "Fair" := by
  refine ⟨fun a => ⟨rfl, ?_⟩, by norm_num [rfModelQuality],
    by norm_num [rfModelQuality], by norm_num [rfModelQuality],
    by norm_num [rfModelQuality]⟩
  unfold rfModelQuality
  split_ifs with h1 h2 <;> refine ⟨?_, ?_, ?_⟩ <;>
    simp_all <;> intros <;> linarith

end VA
